import Mathlib

/-!
Shallow embedding of the Mergington High School API (`src/app.py`).

The program keeps two in-memory stores:
- `users`: a dict with the two fixed keys "students" and "clubs", each
  mapping email to a record with fields name, password, profile
  (profile has fields name and bio);
- `activities`: a dict mapping activity name to a record with fields
  description, schedule, max_participants, participants (a list of
  email strings), seeded with nine fixed activities.

Python dicts are embedded as association lists (insertion-ordered
key/value pairs, lookup and in-place assignment on the first matching
key).  Each endpoint function becomes a pure Lean function from the
relevant store and its arguments to a pair of the HTTP-level result
(`Except PyError α`) and the store after the call; the Python code
mutates the store in place, so the returned store is the state the
process is left in whether the call succeeded or raised.
-/

/-- Profile sub-record stored under the "profile" key of a user record. -/
structure Profile where
  name : String
  bio : String
deriving Repr, DecidableEq

/-- A user record as created by `register_user`: name, password and
profile keys. -/
structure UserRecord where
  name : String
  password : String
  profile : Profile
deriving Repr, DecidableEq

/-- Activity record: description, schedule, max_participants,
participants (insertion-ordered emails). -/
structure Activity where
  description : String
  schedule : String
  max_participants : Nat
  participants : List String
deriving Repr, DecidableEq

/-- The `users` store: a dict with exactly the keys "students" and
"clubs", each an email-keyed dict of user records. -/
structure Users where
  students : List (String × UserRecord)
  clubs : List (String × UserRecord)
deriving Repr, DecidableEq

/-- The `activities` store: an insertion-ordered dict from activity name
to activity record. -/
abbrev Roster := List (String × Activity)

/-- Dict lookup `d[k]` / `d.get(k)`: the value at the first matching
key, if any. -/
def dictLookup (k : String) : List (String × β) → Option β
  | [] => none
  | (k', v) :: rest => if k' = k then some v else dictLookup k rest

/-- Dict assignment `d[k] = v`: replace the value at an existing key in
place, otherwise append the new pair at the end (Python dicts preserve
insertion order). -/
def dictSet (k : String) (v : β) : List (String × β) → List (String × β)
  | [] => [(k, v)]
  | (k', v') :: rest => if k' = k then (k, v) :: rest else (k', v') :: dictSet k v rest

/-- Membership test `k in d` on a dict. -/
def dictMem (k : String) (l : List (String × β)) : Bool :=
  (dictLookup k l).isSome

/-- An `HTTPException(status_code, detail)` raised by a handler. -/
structure HTTPError where
  statusCode : Nat
  detail : String
deriving Repr, DecidableEq

/-- A Python-level failure of a handler: either an `HTTPException` it
raises deliberately, or an `AttributeError` escaping from an access to
a missing attribute (the argument is the missing attribute's name). -/
inductive PyError where
  | http (e : HTTPError)
  | attributeError (attr : String)
deriving Repr, DecidableEq

def invalidUserTypeErr : HTTPError := ⟨400, "Invalid user type"⟩
def userExistsErr : HTTPError := ⟨400, "User already exists"⟩
def invalidCredentialsErr : HTTPError := ⟨401, "Invalid credentials"⟩
def userNotFoundErr : HTTPError := ⟨404, "User not found"⟩
def currentPasswordIncorrectErr : HTTPError := ⟨401, "Current password incorrect"⟩
def activityNotFoundErr : HTTPError := ⟨404, "Activity not found"⟩
def alreadySignedUpErr : HTTPError := ⟨400, "Student is already signed up"⟩
def notSignedUpErr : HTTPError := ⟨400, "Student is not signed up for this activity"⟩

/-- Lookup `users[user_type]`: the store has exactly the keys
"students" and "clubs". -/
def Users.getColl? (u : Users) (user_type : String) : Option (List (String × UserRecord)) :=
  if user_type = "students" then some u.students
  else if user_type = "clubs" then some u.clubs
  else none

/-- Write back the collection selected by `user_type` (in the Python
code the lookup returns the dict by reference, so mutations land in
the selected collection). -/
def Users.setColl (u : Users) (user_type : String) (c : List (String × UserRecord)) : Users :=
  if user_type = "students" then { u with students := c }
  else if user_type = "clubs" then { u with clubs := c }
  else u

/-- Python `str.title()` on one character run: uppercase an alphabetic
character that does not follow an alphabetic one, lowercase the rest. -/
def pyTitleGo : Bool → List Char → List Char
  | _, [] => []
  | prevAlpha, c :: cs =>
    (if c.isAlpha then (if prevAlpha then c.toLower else c.toUpper) else c)
      :: pyTitleGo c.isAlpha cs

/-- Python `str.title()` (restricted to the ASCII strings the program
uses). -/
def pyTitle (s : String) : String := ⟨pyTitleGo false s.data⟩

/-- The request body model `UserLogin(BaseModel)`: fields `email` and
`password` only. -/
structure UserLogin where
  email : String
  password : String
deriving Repr, DecidableEq

/-- `register_user(user_type, user)` (POST /register/\x7buser_type\x7d). -/
def register_user (u : Users) (user_type email name password : String) :
    Except PyError String × Users :=
  match u.getColl? user_type with
  | none => (.error (.http invalidUserTypeErr), u)
  | some coll =>
    if dictMem email coll then
      (.error (.http userExistsErr), u)
    else
      (.ok (pyTitle user_type ++ " registered successfully"),
       u.setColl user_type (dictSet email ⟨name, password, ⟨name, ""⟩⟩ coll))

/-- `login_user(user_type, creds)` (POST /login/\x7buser_type\x7d).  The
Python test `not user or user["password"] != creds.password` is the
record being absent or its password differing. -/
def login_user (u : Users) (user_type email password : String) :
    Except PyError (String × Profile) × Users :=
  match u.getColl? user_type with
  | none => (.error (.http invalidUserTypeErr), u)
  | some coll =>
    match dictLookup email coll with
    | none => (.error (.http invalidCredentialsErr), u)
    | some user =>
      if user.password ≠ password then
        (.error (.http invalidCredentialsErr), u)
      else
        (.ok (pyTitle user_type ++ " logged in", user.profile), u)

/-- `get_profile(user_type, email)` (GET /profile/...). -/
def get_profile (u : Users) (user_type email : String) :
    Except PyError Profile × Users :=
  match u.getColl? user_type with
  | none => (.error (.http invalidUserTypeErr), u)
  | some coll =>
    match dictLookup email coll with
    | none => (.error (.http userNotFoundErr), u)
    | some user => (.ok user.profile, u)

/-- `update_profile(user_type, email, profile)` (PUT /profile/...):
each of the optional fields name and bio overwrites the corresponding
profile field only when supplied. -/
def update_profile (u : Users) (user_type email : String)
    (pname pbio : Option String) :
    Except PyError (String × Profile) × Users :=
  match u.getColl? user_type with
  | none => (.error (.http invalidUserTypeErr), u)
  | some coll =>
    match dictLookup email coll with
    | none => (.error (.http userNotFoundErr), u)
    | some user =>
      let p1 := match pname with
        | some n => { user.profile with name := n }
        | none => user.profile
      let p2 := match pbio with
        | some b => { p1 with bio := b }
        | none => p1
      (.ok ("Profile updated", p2),
       u.setColl user_type (dictSet email { user with profile := p2 } coll))

/-- `change_password(user_type, email, data)` (PUT /change-password/...)
with `data : UserLogin`.  After the current-password check the code
executes `user["password"] = data.name`; `UserLogin` declares only the
fields `email` and `password`, so the attribute access `data.name`
raises `AttributeError` before any assignment happens, and the stored
password is left unchanged. -/
def change_password (u : Users) (user_type email : String) (data : UserLogin) :
    Except PyError String × Users :=
  match u.getColl? user_type with
  | none => (.error (.http invalidUserTypeErr), u)
  | some coll =>
    match dictLookup email coll with
    | none => (.error (.http userNotFoundErr), u)
    | some user =>
      if user.password ≠ data.password then
        (.error (.http currentPasswordIncorrectErr), u)
      else
        (.error (.attributeError "name"), u)

/-- `signup_for_activity(activity_name, email)` (POST
/activities/.../signup): no capacity check, append at the end. -/
def signup_for_activity (acts : Roster) (activity_name email : String) :
    Except PyError String × Roster :=
  match dictLookup activity_name acts with
  | none => (.error (.http activityNotFoundErr), acts)
  | some activity =>
    if email ∈ activity.participants then
      (.error (.http alreadySignedUpErr), acts)
    else
      (.ok ("Signed up " ++ email ++ " for " ++ activity_name),
       dictSet activity_name
         { activity with participants := activity.participants ++ [email] } acts)

/-- `unregister_from_activity(activity_name, email)` (DELETE
/activities/.../unregister): `list.remove` deletes the first matching
entry. -/
def unregister_from_activity (acts : Roster) (activity_name email : String) :
    Except PyError String × Roster :=
  match dictLookup activity_name acts with
  | none => (.error (.http activityNotFoundErr), acts)
  | some activity =>
    if email ∈ activity.participants then
      (.ok ("Unregistered " ++ email ++ " from " ++ activity_name),
       dictSet activity_name
         { activity with participants := activity.participants.erase email } acts)
    else
      (.error (.http notSignedUpErr), acts)

/-- The `users` store at startup: both collections empty. -/
def initialUsers : Users := ⟨[], []⟩

/-- The `activities` seed data, reproduced from the source. -/
def initialActivities : Roster := [
  ("Chess Club",
   ⟨"Learn strategies and compete in chess tournaments",
    "Fridays, 3:30 PM - 5:00 PM", 12,
    ["michael@mergington.edu", "daniel@mergington.edu"]⟩),
  ("Programming Class",
   ⟨"Learn programming fundamentals and build software projects",
    "Tuesdays and Thursdays, 3:30 PM - 4:30 PM", 20,
    ["emma@mergington.edu", "sophia@mergington.edu"]⟩),
  ("Gym Class",
   ⟨"Physical education and sports activities",
    "Mondays, Wednesdays, Fridays, 2:00 PM - 3:00 PM", 30,
    ["john@mergington.edu", "olivia@mergington.edu"]⟩),
  ("Soccer Team",
   ⟨"Join the school soccer team and compete in matches",
    "Tuesdays and Thursdays, 4:00 PM - 5:30 PM", 22,
    ["liam@mergington.edu", "noah@mergington.edu"]⟩),
  ("Basketball Team",
   ⟨"Practice and play basketball with the school team",
    "Wednesdays and Fridays, 3:30 PM - 5:00 PM", 15,
    ["ava@mergington.edu", "mia@mergington.edu"]⟩),
  ("Art Club",
   ⟨"Explore your creativity through painting and drawing",
    "Thursdays, 3:30 PM - 5:00 PM", 15,
    ["amelia@mergington.edu", "harper@mergington.edu"]⟩),
  ("Drama Club",
   ⟨"Act, direct, and produce plays and performances",
    "Mondays and Wednesdays, 4:00 PM - 5:30 PM", 20,
    ["ella@mergington.edu", "scarlett@mergington.edu"]⟩),
  ("Math Club",
   ⟨"Solve challenging problems and participate in math competitions",
    "Tuesdays, 3:30 PM - 4:30 PM", 10,
    ["james@mergington.edu", "benjamin@mergington.edu"]⟩),
  ("Debate Team",
   ⟨"Develop public speaking and argumentation skills",
    "Fridays, 4:00 PM - 5:30 PM", 12,
    ["charlotte@mergington.edu", "henry@mergington.edu"]⟩)]

/-! Dictionary lemmas. -/

theorem dictLookup_dictSet_self (k : String) (v : β) (l : List (String × β)) :
    dictLookup k (dictSet k v l) = some v := by
  induction l with
  | nil => simp [dictLookup, dictSet]
  | cons hd tl ih =>
    obtain ⟨k', v'⟩ := hd
    by_cases hk : k' = k <;> simp [dictLookup, dictSet, hk, ih]

theorem dictLookup_dictSet_ne (k k' : String) (v : β) (l : List (String × β))
    (hne : k ≠ k') : dictLookup k' (dictSet k v l) = dictLookup k' l := by
  induction l with
  | nil => simp [dictLookup, dictSet, hne]
  | cons hd tl ih =>
    obtain ⟨k₀, v₀⟩ := hd
    by_cases hk : k₀ = k
    · subst hk
      simp [dictLookup, dictSet, hne]
    · simp [dictLookup, dictSet, hk, ih]

/-- C1: for every roster state, every activity in it and every email not
already among its participants, signup succeeds and appends the email
even when the participants list already has length at least
max_participants; no capacity check is performed. -/
theorem signup_ignores_capacity (acts : Roster) (aname email : String)
    (a : Activity) (hl : dictLookup aname acts = some a)
    (hmem : email ∉ a.participants)
    (_hfull : a.max_participants ≤ a.participants.length) :
    (signup_for_activity acts aname email).1 =
      .ok ("Signed up " ++ email ++ " for " ++ aname) ∧
    dictLookup aname (signup_for_activity acts aname email).2 =
      some { a with participants := a.participants ++ [email] } := by
  simp [signup_for_activity, hl, hmem, dictLookup_dictSet_self]

/-- Witness for C1: a concrete roster whose single activity "A" is
already at its capacity of 1; signing up a second email still succeeds
and appends it. -/
theorem signup_ignores_capacity_witness :
    dictLookup "A" [("A", (⟨"d", "s", 1, ["x@m.edu"]⟩ : Activity))] =
      some ⟨"d", "s", 1, ["x@m.edu"]⟩ ∧
    "y@m.edu" ∉ (["x@m.edu"] : List String) ∧
    (1 : Nat) ≤ (["x@m.edu"] : List String).length ∧
    (signup_for_activity [("A", ⟨"d", "s", 1, ["x@m.edu"]⟩)] "A" "y@m.edu").1 =
      .ok ("Signed up " ++ "y@m.edu" ++ " for " ++ "A") ∧
    dictLookup "A"
        (signup_for_activity [("A", ⟨"d", "s", 1, ["x@m.edu"]⟩)] "A" "y@m.edu").2 =
      some ⟨"d", "s", 1, ["x@m.edu", "y@m.edu"]⟩ := by
  refine ⟨rfl, by decide, by decide, ?_⟩
  exact signup_ignores_capacity [("A", ⟨"d", "s", 1, ["x@m.edu"]⟩)] "A" "y@m.edu"
    ⟨"d", "s", 1, ["x@m.edu"]⟩ rfl (by decide) (by decide)

/-- C2: signup fails with ActivityNotFound (404 "Activity not found")
when the activity name is not in the roster, fails with
AlreadyRegistered (400 "Student is already signed up") when the email
is already among the activity's participants, and otherwise appends the
email at the end of that activity's participants and returns the
message "Signed up \x7bemail\x7d for \x7bactivity_name\x7d". -/
theorem signup_spec (acts : Roster) (aname email : String) :
    (dictLookup aname acts = none →
      signup_for_activity acts aname email =
        (.error (.http activityNotFoundErr), acts)) ∧
    (∀ a, dictLookup aname acts = some a → email ∈ a.participants →
      signup_for_activity acts aname email =
        (.error (.http alreadySignedUpErr), acts)) ∧
    (∀ a, dictLookup aname acts = some a → email ∉ a.participants →
      signup_for_activity acts aname email =
        (.ok ("Signed up " ++ email ++ " for " ++ aname),
         dictSet aname { a with participants := a.participants ++ [email] } acts)) := by
  refine ⟨fun hn => ?_, fun a ha hmem => ?_, fun a ha hmem => ?_⟩
  · simp [signup_for_activity, hn]
  · simp [signup_for_activity, ha, hmem]
  · simp [signup_for_activity, ha, hmem]

/-- Witness for C2: on the seed roster, signup to a missing activity
fails with 404, signing up an existing participant of Chess Club fails
with 400, and a fresh signup to Chess Club appends at the end. -/
theorem signup_spec_witness :
    signup_for_activity initialActivities "Knitting" "a@m.edu" =
      (.error (.http activityNotFoundErr), initialActivities) ∧
    signup_for_activity initialActivities "Chess Club" "michael@mergington.edu" =
      (.error (.http alreadySignedUpErr), initialActivities) ∧
    signup_for_activity initialActivities "Chess Club" "new@m.edu" =
      (.ok ("Signed up " ++ "new@m.edu" ++ " for " ++ "Chess Club"),
       dictSet "Chess Club"
         ⟨"Learn strategies and compete in chess tournaments",
          "Fridays, 3:30 PM - 5:00 PM", 12,
          ["michael@mergington.edu", "daniel@mergington.edu"] ++ ["new@m.edu"]⟩
         initialActivities) := by
  refine ⟨(signup_spec initialActivities "Knitting" "a@m.edu").1 rfl,
    (signup_spec initialActivities "Chess Club" "michael@mergington.edu").2.1
      _ rfl (by decide), ?_⟩
  exact (signup_spec initialActivities "Chess Club" "new@m.edu").2.2 _ rfl (by decide)

/-- C3: unregister fails with ActivityNotFound (404 "Activity not
found") when the activity name is not in the roster, fails with
NotRegistered (400 "Student is not signed up for this activity") when
the email is absent from the activity's participants, and otherwise —
with the participants list duplicate-free, as every reachable state
keeps it — removes exactly the single matching entry, leaving the
other participants of that activity in order and every other activity
unchanged, and returns the confirmation message. -/
theorem unregister_spec (acts : Roster) (aname email : String) :
    (dictLookup aname acts = none →
      unregister_from_activity acts aname email =
        (.error (.http activityNotFoundErr), acts)) ∧
    (∀ a, dictLookup aname acts = some a → email ∉ a.participants →
      unregister_from_activity acts aname email =
        (.error (.http notSignedUpErr), acts)) ∧
    (∀ a, dictLookup aname acts = some a → a.participants.Nodup →
      email ∈ a.participants →
      ∃ l₁ l₂, a.participants = l₁ ++ email :: l₂ ∧ email ∉ l₁ ∧ email ∉ l₂ ∧
        (unregister_from_activity acts aname email).1 =
          .ok ("Unregistered " ++ email ++ " from " ++ aname) ∧
        dictLookup aname (unregister_from_activity acts aname email).2 =
          some { a with participants := l₁ ++ l₂ } ∧
        ∀ other, other ≠ aname →
          dictLookup other (unregister_from_activity acts aname email).2 =
            dictLookup other acts) := by
  refine ⟨fun hn => ?_, fun a ha hmem => ?_, fun a ha hnd hmem => ?_⟩
  · simp [unregister_from_activity, hn]
  · simp [unregister_from_activity, ha, hmem]
  · obtain ⟨l₁, l₂, hnot₁, hsplit, herase⟩ := List.exists_erase_eq hmem
    have hnot₂ : email ∉ l₂ := by
      have := hnd
      rw [hsplit] at this
      exact (List.nodup_cons.mp this.of_append_right).1
    refine ⟨l₁, l₂, hsplit, hnot₁, hnot₂, ?_, ?_, ?_⟩
    · simp [unregister_from_activity, ha, hmem]
    · simp [unregister_from_activity, ha, hmem, dictLookup_dictSet_self, herase]
    · intro other hother
      simp only [unregister_from_activity, ha, hmem, if_pos]
      exact dictLookup_dictSet_ne aname other _ acts (fun h => hother h.symm)

/-- Witness for C3: on the seed roster, unregistering from a missing
activity fails with 404, unregistering an email not signed up for
Chess Club fails with 400, and unregistering michael@mergington.edu
from Chess Club removes exactly that entry and leaves Math Club
untouched. -/
theorem unregister_spec_witness :
    unregister_from_activity initialActivities "Knitting" "a@m.edu" =
      (.error (.http activityNotFoundErr), initialActivities) ∧
    unregister_from_activity initialActivities "Chess Club" "nobody@m.edu" =
      (.error (.http notSignedUpErr), initialActivities) ∧
    (unregister_from_activity initialActivities "Chess Club"
        "michael@mergington.edu").1 =
      .ok ("Unregistered " ++ "michael@mergington.edu" ++ " from " ++ "Chess Club") ∧
    dictLookup "Chess Club"
        (unregister_from_activity initialActivities "Chess Club"
          "michael@mergington.edu").2 =
      some ⟨"Learn strategies and compete in chess tournaments",
        "Fridays, 3:30 PM - 5:00 PM", 12, ["daniel@mergington.edu"]⟩ ∧
    dictLookup "Math Club"
        (unregister_from_activity initialActivities "Chess Club"
          "michael@mergington.edu").2 =
      dictLookup "Math Club" initialActivities := by
  obtain ⟨l₁, l₂, hsplit, h₁, h₂, hres, hlook, hother⟩ :=
    (unregister_spec initialActivities "Chess Club" "michael@mergington.edu").2.2
      ⟨"Learn strategies and compete in chess tournaments",
       "Fridays, 3:30 PM - 5:00 PM", 12,
       ["michael@mergington.edu", "daniel@mergington.edu"]⟩
      rfl (by decide) (by decide)
  have hl₁ : l₁ = [] := by
    rcases l₁ with _ | ⟨x, l⟩
    · rfl
    · exfalso
      have : x = "michael@mergington.edu" := by
        have := congrArg (fun l => l.head?) hsplit
        simpa using this.symm
      exact h₁ (this ▸ List.mem_cons_self x l)
  subst hl₁
  have hl₂ : l₂ = ["daniel@mergington.edu"] := by
    simpa using hsplit.symm
  subst hl₂
  exact ⟨(unregister_spec initialActivities "Knitting" "a@m.edu").1 rfl,
    (unregister_spec initialActivities "Chess Club" "nobody@m.edu").2.1 _ rfl (by decide),
    hres, hlook, hother "Math Club" (by decide)⟩

/-- C4 (code bug): when the supplied current password differs from the
stored one, change_password fails with 401 "Current password
incorrect"; but when it matches, the code executes
`user["password"] = data.name` on a `UserLogin` payload that has no
`name` field, so the call raises AttributeError instead of overwriting
the password, and the stored record is left unchanged.  Evaluated here
on a concrete store holding one student a@m.edu with password "pw". -/
theorem change_password_attribute_error :
    change_password ⟨[("a@m.edu", ⟨"Alice", "pw", ⟨"Alice", ""⟩⟩)], []⟩
        "students" "a@m.edu" ⟨"a@m.edu", "wrong"⟩ =
      (.error (.http currentPasswordIncorrectErr),
       ⟨[("a@m.edu", ⟨"Alice", "pw", ⟨"Alice", ""⟩⟩)], []⟩) ∧
    change_password ⟨[("a@m.edu", ⟨"Alice", "pw", ⟨"Alice", ""⟩⟩)], []⟩
        "students" "a@m.edu" ⟨"a@m.edu", "pw"⟩ =
      (.error (.attributeError "name"),
       ⟨[("a@m.edu", ⟨"Alice", "pw", ⟨"Alice", ""⟩⟩)], []⟩) := by
  exact ⟨rfl, rfl⟩

/-- C5: register fails with InvalidCollection (400 "Invalid user type")
for a collection outside students/clubs; fails with DuplicateUser (400
"User already exists") when the email is already present in that
collection — in particular a second registration of the same email in
the same collection always fails; a successful registration inserts a
record whose profile is the supplied name with an empty bio; and each
registration touches only its own collection, so the same email can be
registered in the other collection independently. -/
theorem register_spec (u : Users) (user_type email name password : String) :
    (Users.getColl? u user_type = none →
      register_user u user_type email name password =
        (.error (.http invalidUserTypeErr), u)) ∧
    (∀ coll, Users.getColl? u user_type = some coll →
      dictMem email coll = true →
      register_user u user_type email name password =
        (.error (.http userExistsErr), u)) ∧
    (∀ coll, Users.getColl? u user_type = some coll →
      dictMem email coll = false →
      register_user u user_type email name password =
        (.ok (pyTitle user_type ++ " registered successfully"),
         u.setColl user_type
           (dictSet email ⟨name, password, ⟨name, ""⟩⟩ coll)) ∧
      Users.getColl? (register_user u user_type email name password).2 user_type =
        some (dictSet email ⟨name, password, ⟨name, ""⟩⟩ coll) ∧
      dictLookup email
          (dictSet email (⟨name, password, ⟨name, ""⟩⟩ : UserRecord) coll) =
        some ⟨name, password, ⟨name, ""⟩⟩ ∧
      (∀ n' p', register_user (register_user u user_type email name password).2
          user_type email n' p' =
        (.error (.http userExistsErr),
         (register_user u user_type email name password).2))) ∧
    ((register_user u "students" email name password).2.clubs = u.clubs ∧
     (register_user u "clubs" email name password).2.students = u.students) := by
  have hset : ∀ c, Users.getColl? u user_type = some c →
      ∀ c', Users.getColl? (u.setColl user_type c') user_type = some c' := by
    intro c hc c'
    by_cases hs : user_type = "students"
    · simp [Users.getColl?, Users.setColl, hs]
    · by_cases hcl : user_type = "clubs" <;>
        simp [Users.getColl?, Users.setColl, hs, hcl] at hc ⊢
  refine ⟨fun hn => ?_, fun coll hc hmem => ?_, fun coll hc hmem => ?_, ?_, ?_⟩
  · simp [register_user, hn]
  · simp [register_user, hc, hmem]
  · have hreg : register_user u user_type email name password =
        (.ok (pyTitle user_type ++ " registered successfully"),
         u.setColl user_type (dictSet email ⟨name, password, ⟨name, ""⟩⟩ coll)) := by
      simp [register_user, hc, hmem]
    have hcoll' := hset coll hc (dictSet email ⟨name, password, ⟨name, ""⟩⟩ coll)
    refine ⟨hreg, by rw [hreg]; exact hcoll', dictLookup_dictSet_self _ _ _, ?_⟩
    intro n' p'
    have hmem' : dictMem email (dictSet email
        (⟨name, password, ⟨name, ""⟩⟩ : UserRecord) coll) = true := by
      simp [dictMem, dictLookup_dictSet_self]
    rw [hreg]
    simp [register_user, hcoll', hmem']
  · cases hmem : dictMem email u.students <;>
      simp [register_user, Users.getColl?, Users.setColl, hmem]
  · cases hmem : dictMem email u.clubs <;>
      simp [register_user, Users.getColl?, Users.setColl, hmem]

/-- Witness for C5: from the empty store, registering a@m.edu as a
student succeeds with the profile (the supplied name, empty bio),
registering the same email again as a student fails with 400 "User
already exists", registering it as a club on top still succeeds, and a
collection named "teachers" is rejected with 400 "Invalid user type". -/
theorem register_spec_witness :
    register_user initialUsers "teachers" "a@m.edu" "Alice" "pw" =
      (.error (.http invalidUserTypeErr), initialUsers) ∧
    register_user initialUsers "students" "a@m.edu" "Alice" "pw" =
      (.ok (pyTitle "students" ++ " registered successfully"),
       Users.setColl initialUsers "students"
         (dictSet "a@m.edu" ⟨"Alice", "pw", ⟨"Alice", ""⟩⟩ [])) ∧
    register_user (register_user initialUsers "students" "a@m.edu" "Alice" "pw").2
        "students" "a@m.edu" "Bob" "pw2" =
      (.error (.http userExistsErr),
       (register_user initialUsers "students" "a@m.edu" "Alice" "pw").2) ∧
    (register_user initialUsers "clubs" "a@m.edu" "Alice" "pw").2.students =
      initialUsers.students := by
  obtain ⟨hok, _, _, hdup⟩ :=
    (register_spec initialUsers "students" "a@m.edu" "Alice" "pw").2.2.1 [] rfl rfl
  exact ⟨(register_spec initialUsers "teachers" "a@m.edu" "Alice" "pw").1 rfl,
    hok, hdup "Bob" "pw2",
    (register_spec initialUsers "clubs" "a@m.edu" "Alice" "pw").2.2.2.2⟩

/-- C6: for a valid collection, login returns the stored profile
exactly when the email is present and the supplied password equals the
stored one by string equality; an absent email or a password mismatch
yields InvalidCredentials (401 "Invalid credentials"), and a success
can only arise from a matching stored record. -/
theorem login_spec (u : Users) (user_type email password : String)
    (coll : List (String × UserRecord))
    (hc : Users.getColl? u user_type = some coll) :
    (∀ r, dictLookup email coll = some r → r.password = password →
      login_user u user_type email password =
        (.ok (pyTitle user_type ++ " logged in", r.profile), u)) ∧
    ((∀ r, dictLookup email coll = some r → r.password ≠ password) →
      login_user u user_type email password =
        (.error (.http invalidCredentialsErr), u)) ∧
    (∀ m p, (login_user u user_type email password).1 = .ok (m, p) →
      ∃ r, dictLookup email coll = some r ∧ r.password = password ∧
        p = r.profile) := by
  refine ⟨fun r hr hpw => ?_, fun hno => ?_, fun m p hok => ?_⟩
  · simp [login_user, hc, hr, hpw]
  · cases hr : dictLookup email coll with
    | none => simp [login_user, hc, hr]
    | some r => simp [login_user, hc, hr, hno r hr]
  · cases hr : dictLookup email coll with
    | none => simp [login_user, hc, hr] at hok
    | some r =>
      by_cases hpw : r.password = password
      · exact ⟨r, rfl, hpw, by simp [login_user, hc, hr, hpw] at hok; exact hok.2.symm⟩
      · simp [login_user, hc, hr, hpw] at hok

/-- Witness for C6: in a store holding the student a@m.edu with
password "pw", login with "pw" returns the stored profile, and login
with a wrong password or an unknown email fails with 401 "Invalid
credentials". -/
theorem login_spec_witness :
    login_user ⟨[("a@m.edu", ⟨"Alice", "pw", ⟨"Alice", "hi"⟩⟩)], []⟩
        "students" "a@m.edu" "pw" =
      (.ok (pyTitle "students" ++ " logged in", ⟨"Alice", "hi"⟩),
       ⟨[("a@m.edu", ⟨"Alice", "pw", ⟨"Alice", "hi"⟩⟩)], []⟩) ∧
    login_user ⟨[("a@m.edu", ⟨"Alice", "pw", ⟨"Alice", "hi"⟩⟩)], []⟩
        "students" "a@m.edu" "nope" =
      (.error (.http invalidCredentialsErr),
       ⟨[("a@m.edu", ⟨"Alice", "pw", ⟨"Alice", "hi"⟩⟩)], []⟩) ∧
    login_user ⟨[("a@m.edu", ⟨"Alice", "pw", ⟨"Alice", "hi"⟩⟩)], []⟩
        "students" "ghost@m.edu" "pw" =
      (.error (.http invalidCredentialsErr),
       ⟨[("a@m.edu", ⟨"Alice", "pw", ⟨"Alice", "hi"⟩⟩)], []⟩) := by
  refine ⟨(login_spec _ "students" "a@m.edu" "pw" _ rfl).1
      ⟨"Alice", "pw", ⟨"Alice", "hi"⟩⟩ rfl rfl,
    (login_spec _ "students" "a@m.edu" "nope" _ rfl).2.1 ?_,
    (login_spec _ "students" "ghost@m.edu" "pw" _ rfl).2.1 ?_⟩
  · intro r hr
    simp [dictLookup] at hr
    subst hr
    decide
  · intro r hr
    simp [dictLookup] at hr

/-- C7: for a registered user, update_profile overwrites only the
fields actually supplied: with only bio supplied the profile's name is
unchanged, with only name supplied the bio is unchanged, and in both
cases the updated profile is returned. -/
theorem update_profile_frame (u : Users) (user_type email : String)
    (coll : List (String × UserRecord)) (user : UserRecord)
    (hc : Users.getColl? u user_type = some coll)
    (hu : dictLookup email coll = some user) :
    (∀ b, update_profile u user_type email none (some b) =
      (.ok ("Profile updated", ⟨user.profile.name, b⟩),
       u.setColl user_type
         (dictSet email { user with profile := ⟨user.profile.name, b⟩ } coll))) ∧
    (∀ n, update_profile u user_type email (some n) none =
      (.ok ("Profile updated", ⟨n, user.profile.bio⟩),
       u.setColl user_type
         (dictSet email { user with profile := ⟨n, user.profile.bio⟩ } coll))) := by
  constructor
  · intro b
    simp [update_profile, hc, hu]
  · intro n
    simp [update_profile, hc, hu]

/-- Witness for C7: for the student a@m.edu with profile name "Alice"
and bio "hi", supplying only a bio keeps the name "Alice", and
supplying only a name keeps the bio "hi". -/
theorem update_profile_frame_witness :
    update_profile ⟨[("a@m.edu", ⟨"Alice", "pw", ⟨"Alice", "hi"⟩⟩)], []⟩
        "students" "a@m.edu" none (some "new bio") =
      (.ok ("Profile updated", ⟨"Alice", "new bio"⟩),
       Users.setColl ⟨[("a@m.edu", ⟨"Alice", "pw", ⟨"Alice", "hi"⟩⟩)], []⟩
         "students"
         (dictSet "a@m.edu" ⟨"Alice", "pw", ⟨"Alice", "new bio"⟩⟩
           [("a@m.edu", ⟨"Alice", "pw", ⟨"Alice", "hi"⟩⟩)])) ∧
    update_profile ⟨[("a@m.edu", ⟨"Alice", "pw", ⟨"Alice", "hi"⟩⟩)], []⟩
        "students" "a@m.edu" (some "Bob") none =
      (.ok ("Profile updated", ⟨"Bob", "hi"⟩),
       Users.setColl ⟨[("a@m.edu", ⟨"Alice", "pw", ⟨"Alice", "hi"⟩⟩)], []⟩
         "students"
         (dictSet "a@m.edu" ⟨"Alice", "pw", ⟨"Bob", "hi"⟩⟩
           [("a@m.edu", ⟨"Alice", "pw", ⟨"Alice", "hi"⟩⟩)])) :=
  ⟨(update_profile_frame ⟨[("a@m.edu", ⟨"Alice", "pw", ⟨"Alice", "hi"⟩⟩)], []⟩
      "students" "a@m.edu" [("a@m.edu", ⟨"Alice", "pw", ⟨"Alice", "hi"⟩⟩)]
      ⟨"Alice", "pw", ⟨"Alice", "hi"⟩⟩ rfl rfl).1 "new bio",
   (update_profile_frame ⟨[("a@m.edu", ⟨"Alice", "pw", ⟨"Alice", "hi"⟩⟩)], []⟩
      "students" "a@m.edu" [("a@m.edu", ⟨"Alice", "pw", ⟨"Alice", "hi"⟩⟩)]
      ⟨"Alice", "pw", ⟨"Alice", "hi"⟩⟩ rfl rfl).2 "Bob"⟩

/-- One roster operation: a signup or unregister call with arbitrary
arguments (failed calls leave the roster unchanged). -/
inductive RosterStep : Roster → Roster → Prop where
  | signup (acts : Roster) (aname email : String) :
      RosterStep acts (signup_for_activity acts aname email).2
  | unregister (acts : Roster) (aname email : String) :
      RosterStep acts (unregister_from_activity acts aname email).2

/-- Roster states reachable from the seed state by any sequence of
signup and unregister calls. -/
inductive RosterReachable : Roster → Prop where
  | init : RosterReachable initialActivities
  | step {s s' : Roster} : RosterReachable s → RosterStep s s' →
      RosterReachable s'

theorem dictLookup_mem (k : String) (l : List (String × β)) (v : β)
    (h : dictLookup k l = some v) : (k, v) ∈ l := by
  induction l with
  | nil => simp [dictLookup] at h
  | cons hd tl ih =>
    obtain ⟨k', v'⟩ := hd
    by_cases hk : k' = k
    · subst hk
      simp [dictLookup] at h
      simp [h]
    · simp [dictLookup, hk] at h
      exact List.mem_cons_of_mem _ (ih h)

/-- Appending one fresh element keeps a list duplicate-free. -/
theorem nodup_append_singleton {l : List String} {e : String}
    (hnd : l.Nodup) (hmem : e ∉ l) : (l ++ [e]).Nodup := by
  refine List.Nodup.append hnd (List.nodup_singleton e) ?_
  intro a ha hb
  simp at hb
  subst hb
  exact hmem ha

/-- A signup call preserves duplicate-freeness of every participants
list. -/
theorem signup_preserves_nodup (acts : Roster) (aname email : String)
    (h : ∀ n a, dictLookup n acts = some a → a.participants.Nodup) :
    ∀ n a, dictLookup n (signup_for_activity acts aname email).2 = some a →
      a.participants.Nodup := by
  intro n a hn
  cases hl : dictLookup aname acts with
  | none =>
    rw [signup_for_activity] at hn
    rw [hl] at hn
    exact h n a hn
  | some a0 =>
    by_cases hmem : email ∈ a0.participants
    · rw [signup_for_activity] at hn
      rw [hl] at hn
      simp only [if_pos hmem] at hn
      exact h n a hn
    · rw [signup_for_activity] at hn
      rw [hl] at hn
      simp only [if_neg hmem] at hn
      by_cases hne : aname = n
      · subst hne
        rw [dictLookup_dictSet_self] at hn
        cases hn
        exact nodup_append_singleton (h aname a0 hl) hmem
      · rw [dictLookup_dictSet_ne _ _ _ _ hne] at hn
        exact h n a hn

/-- An unregister call preserves duplicate-freeness of every
participants list. -/
theorem unregister_preserves_nodup (acts : Roster) (aname email : String)
    (h : ∀ n a, dictLookup n acts = some a → a.participants.Nodup) :
    ∀ n a, dictLookup n (unregister_from_activity acts aname email).2 = some a →
      a.participants.Nodup := by
  intro n a hn
  cases hl : dictLookup aname acts with
  | none =>
    rw [unregister_from_activity] at hn
    rw [hl] at hn
    exact h n a hn
  | some a0 =>
    by_cases hmem : email ∈ a0.participants
    · rw [unregister_from_activity] at hn
      rw [hl] at hn
      simp only [if_pos hmem] at hn
      by_cases hne : aname = n
      · subst hne
        rw [dictLookup_dictSet_self] at hn
        cases hn
        exact (h aname a0 hl).erase email
      · rw [dictLookup_dictSet_ne _ _ _ _ hne] at hn
        exact h n a hn
    · rw [unregister_from_activity] at hn
      rw [hl] at hn
      simp only [if_neg hmem] at hn
      exact h n a hn

/-- Across one signup or unregister call, each activity's participants
list either grows by the new entry at the end or loses the removed
entry: in both directions one list is a sublist of the other, so the
relative order of the entries present before and after is preserved. -/
theorem roster_step_order (s s' : Roster) (hs : RosterStep s s') :
    ∀ aname a a', dictLookup aname s = some a →
      dictLookup aname s' = some a' →
      a.participants.Sublist a'.participants ∨
      a'.participants.Sublist a.participants := by
  cases hs with
  | signup x e =>
    intro aname a a' ha ha'
    cases hl : dictLookup x s with
    | none =>
      rw [signup_for_activity] at ha'
      rw [hl] at ha'
      rw [ha] at ha'
      cases ha'
      exact Or.inl (List.Sublist.refl _)
    | some a0 =>
      by_cases hmem : e ∈ a0.participants
      · rw [signup_for_activity] at ha'
        rw [hl] at ha'
        simp only [if_pos hmem] at ha'
        rw [ha] at ha'
        cases ha'
        exact Or.inl (List.Sublist.refl _)
      · rw [signup_for_activity] at ha'
        rw [hl] at ha'
        simp only [if_neg hmem] at ha'
        by_cases hne : x = aname
        · subst hne
          rw [dictLookup_dictSet_self] at ha'
          cases ha'
          rw [ha] at hl
          cases hl
          exact Or.inl (List.sublist_append_left _ _)
        · rw [dictLookup_dictSet_ne _ _ _ _ hne] at ha'
          rw [ha] at ha'
          cases ha'
          exact Or.inl (List.Sublist.refl _)
  | unregister x e =>
    intro aname a a' ha ha'
    cases hl : dictLookup x s with
    | none =>
      rw [unregister_from_activity] at ha'
      rw [hl] at ha'
      rw [ha] at ha'
      cases ha'
      exact Or.inl (List.Sublist.refl _)
    | some a0 =>
      by_cases hmem : e ∈ a0.participants
      · rw [unregister_from_activity] at ha'
        rw [hl] at ha'
        simp only [if_pos hmem] at ha'
        by_cases hne : x = aname
        · subst hne
          rw [dictLookup_dictSet_self] at ha'
          cases ha'
          rw [ha] at hl
          cases hl
          exact Or.inr (List.erase_sublist _ _)
        · rw [dictLookup_dictSet_ne _ _ _ _ hne] at ha'
          rw [ha] at ha'
          cases ha'
          exact Or.inl (List.Sublist.refl _)
      · rw [unregister_from_activity] at ha'
        rw [hl] at ha'
        simp only [if_neg hmem] at ha'
        rw [ha] at ha'
        cases ha'
        exact Or.inl (List.Sublist.refl _)

/-- C8: in every roster state reachable from the seed by signup and
unregister calls, each activity's participants list contains each email
at most once, and across any further call the entries that remain keep
their relative order (one side is always a sublist of the other). -/
theorem roster_invariant (s : Roster) (h : RosterReachable s) :
    (∀ aname a, dictLookup aname s = some a → a.participants.Nodup) ∧
    (∀ s', RosterStep s s' → ∀ aname a a',
      dictLookup aname s = some a → dictLookup aname s' = some a' →
      a.participants.Sublist a'.participants ∨
      a'.participants.Sublist a.participants) := by
  refine ⟨?_, fun s' hs => roster_step_order s s' hs⟩
  induction h with
  | init =>
    intro aname a ha
    have hmem := dictLookup_mem _ _ _ ha
    simp only [initialActivities, List.mem_cons, List.not_mem_nil, or_false,
      Prod.mk.injEq] at hmem
    rcases hmem with ⟨_, rfl⟩ | ⟨_, rfl⟩ | ⟨_, rfl⟩ | ⟨_, rfl⟩ | ⟨_, rfl⟩ |
      ⟨_, rfl⟩ | ⟨_, rfl⟩ | ⟨_, rfl⟩ | ⟨_, rfl⟩ <;> decide
  | step hr hstep ih =>
    cases hstep with
    | signup aname email => exact signup_preserves_nodup _ aname email ih
    | unregister aname email => exact unregister_preserves_nodup _ aname email ih

/-- Witness for C8: the seed state is reachable, Chess Club's seed
participants list is duplicate-free, and after the reachable signup of
new@m.edu to Chess Club the old list is a sublist of the new one. -/
theorem roster_invariant_witness :
    dictLookup "Chess Club" initialActivities =
      some ⟨"Learn strategies and compete in chess tournaments",
        "Fridays, 3:30 PM - 5:00 PM", 12,
        ["michael@mergington.edu", "daniel@mergington.edu"]⟩ ∧
    (["michael@mergington.edu", "daniel@mergington.edu"] : List String).Nodup ∧
    (["michael@mergington.edu", "daniel@mergington.edu"] : List String).Sublist
      (["michael@mergington.edu", "daniel@mergington.edu", "new@m.edu"]) := by
  have h := roster_invariant initialActivities RosterReachable.init
  refine ⟨rfl, h.1 "Chess Club"
    ⟨"Learn strategies and compete in chess tournaments",
     "Fridays, 3:30 PM - 5:00 PM", 12,
     ["michael@mergington.edu", "daniel@mergington.edu"]⟩ rfl, ?_⟩
  have horder := h.2 (signup_for_activity initialActivities "Chess Club" "new@m.edu").2
    (RosterStep.signup initialActivities "Chess Club" "new@m.edu")
    "Chess Club"
    ⟨"Learn strategies and compete in chess tournaments",
     "Fridays, 3:30 PM - 5:00 PM", 12,
     ["michael@mergington.edu", "daniel@mergington.edu"]⟩
    ⟨"Learn strategies and compete in chess tournaments",
     "Fridays, 3:30 PM - 5:00 PM", 12,
     ["michael@mergington.edu", "daniel@mergington.edu", "new@m.edu"]⟩
    rfl rfl
  cases horder with
  | inl hsub => exact hsub
  | inr hsub => exact absurd hsub.length_le (by decide)

/-- C9: every operation of both stores is all-or-nothing — whenever a
call returns an error, the store it operates on is exactly the one it
was given (in the code every check precedes the mutation, so a raised
exception leaves the in-memory state untouched). -/
theorem ops_all_or_nothing (u : Users) (acts : Roster)
    (user_type email name password : String) (data : UserLogin)
    (pname pbio : Option String) (aname aemail : String) :
    (∀ e, (register_user u user_type email name password).1 = .error e →
      (register_user u user_type email name password).2 = u) ∧
    (∀ e, (login_user u user_type email password).1 = .error e →
      (login_user u user_type email password).2 = u) ∧
    (∀ e, (get_profile u user_type email).1 = .error e →
      (get_profile u user_type email).2 = u) ∧
    (∀ e, (update_profile u user_type email pname pbio).1 = .error e →
      (update_profile u user_type email pname pbio).2 = u) ∧
    (∀ e, (change_password u user_type email data).1 = .error e →
      (change_password u user_type email data).2 = u) ∧
    (∀ e, (signup_for_activity acts aname aemail).1 = .error e →
      (signup_for_activity acts aname aemail).2 = acts) ∧
    (∀ e, (unregister_from_activity acts aname aemail).1 = .error e →
      (unregister_from_activity acts aname aemail).2 = acts) := by
  refine ⟨fun e he => ?_, fun e he => ?_, fun e he => ?_, fun e he => ?_,
    fun e he => ?_, fun e he => ?_, fun e he => ?_⟩
  · cases hc : Users.getColl? u user_type with
    | none => simp [register_user, hc]
    | some coll =>
      cases hm : dictMem email coll with
      | false =>
        rw [register_user] at he
        rw [hc] at he
        simp [hm] at he
      | true => simp [register_user, hc, hm]
  · cases hc : Users.getColl? u user_type with
    | none => simp [login_user, hc]
    | some coll =>
      cases hu : dictLookup email coll with
      | none => simp [login_user, hc, hu]
      | some user =>
        rw [login_user]
        rw [hc]
        simp only [hu]
        split <;> rfl
  · cases hc : Users.getColl? u user_type with
    | none => simp [get_profile, hc]
    | some coll =>
      cases hu : dictLookup email coll with
      | none => simp [get_profile, hc, hu]
      | some user => simp [get_profile, hc, hu]
  · cases hc : Users.getColl? u user_type with
    | none => simp [update_profile, hc]
    | some coll =>
      cases hu : dictLookup email coll with
      | none => simp [update_profile, hc, hu]
      | some user =>
        rw [update_profile] at he
        rw [hc] at he
        simp [hu] at he
  · cases hc : Users.getColl? u user_type with
    | none => simp [change_password, hc]
    | some coll =>
      cases hu : dictLookup email coll with
      | none => simp [change_password, hc, hu]
      | some user =>
        rw [change_password]
        rw [hc]
        simp only [hu]
        split <;> rfl
  · cases hl : dictLookup aname acts with
    | none => simp [signup_for_activity, hl]
    | some a =>
      cases hm : decide (aemail ∈ a.participants) with
      | true =>
        have : aemail ∈ a.participants := of_decide_eq_true hm
        simp [signup_for_activity, hl, this]
      | false =>
        have : aemail ∉ a.participants := of_decide_eq_false hm
        rw [signup_for_activity] at he
        rw [hl] at he
        simp [this] at he
  · cases hl : dictLookup aname acts with
    | none => simp [unregister_from_activity, hl]
    | some a =>
      cases hm : decide (aemail ∈ a.participants) with
      | true =>
        have : aemail ∈ a.participants := of_decide_eq_true hm
        rw [unregister_from_activity] at he
        rw [hl] at he
        simp [this] at he
      | false =>
        have : aemail ∉ a.participants := of_decide_eq_false hm
        simp [unregister_from_activity, hl, this]

/-- Witness for C9: each operation evaluated at a concrete failing
input leaves its store exactly as given. -/
theorem ops_all_or_nothing_witness :
    (register_user initialUsers "teachers" "a@m.edu" "Alice" "pw").2 =
      initialUsers ∧
    (login_user initialUsers "teachers" "a@m.edu" "pw").2 = initialUsers ∧
    (get_profile initialUsers "teachers" "a@m.edu").2 = initialUsers ∧
    (update_profile initialUsers "teachers" "a@m.edu" none none).2 =
      initialUsers ∧
    (change_password initialUsers "teachers" "a@m.edu" ⟨"a@m.edu", "pw"⟩).2 =
      initialUsers ∧
    (signup_for_activity initialActivities "Knitting Club" "a@m.edu").2 =
      initialActivities ∧
    (unregister_from_activity initialActivities "Knitting Club" "a@m.edu").2 =
      initialActivities := by
  obtain ⟨h1, h2, h3, h4, h5, h6, h7⟩ :=
    ops_all_or_nothing initialUsers initialActivities "teachers" "a@m.edu"
      "Alice" "pw" ⟨"a@m.edu", "pw"⟩ none none "Knitting Club" "a@m.edu"
  exact ⟨h1 (.http invalidUserTypeErr) rfl, h2 (.http invalidUserTypeErr) rfl,
    h3 (.http invalidUserTypeErr) rfl, h4 (.http invalidUserTypeErr) rfl,
    h5 (.http invalidUserTypeErr) rfl, h6 (.http activityNotFoundErr) rfl,
    h7 (.http activityNotFoundErr) rfl⟩

/-- The top-level `name` key of the record stored for `email` in the
collection named `user_type`, if both exist. -/
def topName (u : Users) (user_type email : String) : Option String :=
  (u.getColl? user_type).bind fun c => (dictLookup email c).map UserRecord.name

/-- Writing back one record whose top-level name agrees with the stored
one changes no top-level name anywhere in the store. -/
theorem topName_setColl_dictSet (u : Users) (ut' : String)
    (coll : List (String × UserRecord))
    (hc : Users.getColl? u ut' = some coll)
    (e' : String) (user user' : UserRecord)
    (hu : dictLookup e' coll = some user)
    (hname : user'.name = user.name)
    (ut email : String) :
    topName (u.setColl ut' (dictSet e' user' coll)) ut email =
      topName u ut email := by
  have hmap : (dictLookup email (dictSet e' user' coll)).map UserRecord.name =
      (dictLookup email coll).map UserRecord.name := by
    by_cases h3 : e' = email
    · subst h3
      rw [dictLookup_dictSet_self, hu]
      simp [hname]
    · rw [dictLookup_dictSet_ne _ _ _ _ h3]
  by_cases h1 : ut' = "students"
  · subst h1
    have hcoll : u.students = coll := by simpa [Users.getColl?] using hc
    subst hcoll
    by_cases h2 : ut = "students"
    · subst h2
      simpa [topName, Users.getColl?, Users.setColl] using hmap
    · simp [topName, Users.getColl?, Users.setColl, h2]
  · by_cases h1' : ut' = "clubs"
    · subst h1'
      have hcoll : u.clubs = coll := by simpa [Users.getColl?, h1] using hc
      subst hcoll
      by_cases h2 : ut = "clubs"
      · subst h2
        simpa [topName, Users.getColl?, Users.setColl] using hmap
      · simp [topName, Users.getColl?, Users.setColl, h2]
    · simp [Users.getColl?, h1, h1'] at hc

/-- One update_profile call, however addressed, changes no record's
top-level name. -/
theorem topName_update_profile (u : Users) (ut' e' : String)
    (n b : Option String) (ut email : String) :
    topName (update_profile u ut' e' n b).2 ut email = topName u ut email := by
  cases hc : Users.getColl? u ut' with
  | none =>
    rw [update_profile]
    rw [hc]
  | some coll =>
    cases hu : dictLookup e' coll with
    | none =>
      rw [update_profile]
      rw [hc]
      simp only [hu]
    | some user =>
      rw [update_profile]
      rw [hc]
      simp only [hu]
      apply topName_setColl_dictSet u ut' coll hc e' user _ hu ?_ ut email
      rfl

/-- A sequence of update_profile calls, threaded through the store. -/
def applyProfileUpdates (u : Users) :
    List (String × String × Option String × Option String) → Users
  | [] => u
  | (ut, email, n, b) :: rest =>
      applyProfileUpdates (update_profile u ut email n b).2 rest

theorem applyProfileUpdates_topName (u : Users)
    (ops : List (String × String × Option String × Option String))
    (ut email : String) :
    topName (applyProfileUpdates u ops) ut email = topName u ut email := by
  induction ops generalizing u with
  | nil => rfl
  | cons op rest ih =>
    obtain ⟨ut', e', n, b⟩ := op
    rw [applyProfileUpdates, ih, topName_update_profile]

/-- C10: update_profile only ever touches the nested profile object,
so after a successful registration and any sequence of update_profile
calls the record's top-level name still equals the name supplied at
registration. -/
theorem update_profile_preserves_registered_name (u : Users)
    (ops : List (String × String × Option String × Option String))
    (user_type email name password m : String)
    (hreg : (register_user u user_type email name password).1 = .ok m) :
    topName (applyProfileUpdates
        (register_user u user_type email name password).2 ops)
      user_type email = some name := by
  rw [applyProfileUpdates_topName]
  cases hc : Users.getColl? u user_type with
  | none =>
    rw [register_user] at hreg
    rw [hc] at hreg
    cases hreg
  | some coll =>
    cases hm : dictMem email coll with
    | true =>
      rw [register_user] at hreg
      rw [hc] at hreg
      simp [hm] at hreg
    | false =>
      have hstate : (register_user u user_type email name password).2 =
          u.setColl user_type
            (dictSet email ⟨name, password, ⟨name, ""⟩⟩ coll) := by
        rw [register_user]
        rw [hc]
        simp [hm]
      rw [hstate]
      have hcoll' : Users.getColl?
          (u.setColl user_type
            (dictSet email (⟨name, password, ⟨name, ""⟩⟩ : UserRecord) coll))
          user_type =
          some (dictSet email ⟨name, password, ⟨name, ""⟩⟩ coll) := by
        by_cases h1 : user_type = "students"
        · subst h1
          simp [Users.getColl?, Users.setColl]
        · by_cases h2 : user_type = "clubs"
          · subst h2
            simp [Users.getColl?, Users.setColl]
          · simp [Users.getColl?, h1, h2] at hc
      rw [topName, hcoll']
      simp [dictLookup_dictSet_self]

/-- Witness for C10: register Alice as a@m.edu, then change both
profile fields with update_profile; the stored top-level name is still
"Alice". -/
theorem update_profile_preserves_registered_name_witness :
    topName (applyProfileUpdates
        (register_user initialUsers "students" "a@m.edu" "Alice" "pw").2
        [("students", "a@m.edu", some "Bob", some "Hi")])
      "students" "a@m.edu" = some "Alice" :=
  update_profile_preserves_registered_name initialUsers
    [("students", "a@m.edu", some "Bob", some "Hi")]
    "students" "a@m.edu" "Alice" "pw"
    (pyTitle "students" ++ " registered successfully") rfl
